import Mathlib

/-!
Shallow embedding of the client-side authentication/session manager of the
task/deadline-tracking frontend.

Sources embedded:
* `src/frontend/src/hooks/useAuth.jsx` — the auth provider: `checkAuth`,
  `login`, `register`, `logout`, `isAdmin`, `hasPermission`,
  `formatErrorMessage`, and the `isCheckingAuth` guard flag.
* `src/unnamed/part_005` — the auth utility module: `getAccessToken`,
  `setAccessToken`, `getStoredUser`, `setStoredUser`, `clearAuthData`,
  `hasUserPermission`, `decodeToken`, `isTokenExpired`, `formatAuthError`.

Modelling conventions:
* `localStorage` is a two-slot store (`access_token`, `user`).  The `user`
  slot holds either a well-formed serialized user record (`StoredVal.ser`,
  the image of `JSON.stringify`) or a string that `JSON.parse` rejects
  (`StoredVal.malformed`).  This embeds the platform's serialize/parse pair
  at exactly the fidelity the code relies on: parsing succeeds precisely on
  values produced by serialization and throws otherwise (the throw is
  modelled as `none`).
* JS truthiness is modelled explicitly where the code branches on it: an
  absent (`null`/`undefined`) or empty string is falsy, objects are truthy.
* Async operations are sequentialized: each operation is a function of its
  pre-state and of the outcomes of the awaited `apiService` calls, returning
  the post-state, an event log of its store/state writes in program order,
  and a count of `getCurrentUser` calls it triggers.  This is faithful on
  the single-threaded event loop: all mutations between two awaits happen
  atomically in source order.
* React `useState` cells are modelled by a rendered value (what the closures
  of the current render capture) plus a pending update that only becomes
  visible at the next render; a setter call never changes the value already
  captured by an in-flight closure.
-/

namespace DeadlineAuth

/-- JS truthiness of a possibly-absent string: `null`/`undefined` and the
empty string are falsy, every other string is truthy. -/
def strTruthy : Option String → Bool
  | some s => s != ""
  | none => false

/-- User record as used by the auth code (shape of the backend's user
object): id, email, username, full name, role, and an optional permission
list (the code accesses `user?.permissions` optionally). -/
structure UserRec where
  id : Nat
  email : String
  username : String
  full_name : String
  role : String
  permissions : Option (List String)
deriving DecidableEq, Repr

/-- A value stored under the `user` localStorage key: either the
serialization of a user record (what `JSON.stringify` writes) or a
malformed string that `JSON.parse` rejects. -/
inductive StoredVal where
  | ser (u : UserRec)
  | malformed (s : String)
deriving DecidableEq, Repr

/-- `JSON.parse` applied to a stored user value: succeeds exactly on
serialized records, throws (modelled as `none`) on malformed ones. -/
def jsonParseUser : StoredVal → Option UserRec
  | .ser u => some u
  | .malformed _ => none

/-- JS truthiness of a raw stored string: a serialized object is a nonempty
string (truthy); a malformed stored string is truthy iff nonempty. -/
def storedTruthy : Option StoredVal → Bool
  | some (.ser _) => true
  | some (.malformed s) => s != ""
  | none => false

/-- The localStorage slots the auth code owns: key `access_token` and key
`user`. `none` means the key is absent (`getItem` returns `null`). -/
structure Store where
  access_token : Option String
  user : Option StoredVal
deriving DecidableEq, Repr

/-- getAccessToken (part_005): `localStorage.getItem('access_token')`. -/
def getAccessToken (s : Store) : Option String := s.access_token

/-- setAccessToken (part_005): `if (token) setItem else removeItem` — every
falsy token (absent or empty string) removes the entry. -/
def setAccessToken (token : Option String) (s : Store) : Store :=
  if strTruthy token then { s with access_token := token }
  else { s with access_token := none }

/-- getStoredUser (part_005): read the `user` key; `JSON.parse` it inside a
try/catch that returns `null` on a parse failure; absent key gives `null`. -/
def getStoredUser (s : Store) : Option UserRec :=
  match s.user with
  | none => none
  | some v => jsonParseUser v

/-- getStoredUser together with its effect on the store: the function only
reads — the returned store is the input store (the catch block logs and
returns `null`; it performs no `removeItem`). -/
def getStoredUserRun (s : Store) : Option UserRec × Store :=
  (getStoredUser s, s)

/-- setStoredUser (part_005): `if (user) setItem(JSON.stringify(user)) else
removeItem` — a falsy (absent) user removes the entry. -/
def setStoredUser (user : Option UserRec) (s : Store) : Store :=
  match user with
  | some u => { s with user := some (.ser u) }
  | none => { s with user := none }

/-- clearAuthData (part_005): remove both keys. -/
def clearAuthData (s : Store) : Store := { s with access_token := none, user := none }

/-- getUserRole (part_005): `user?.role || null` — an absent user or an
empty-string role yields `null`. -/
def getUserRole (s : Store) : Option String :=
  match getStoredUser s with
  | some u => if u.role != "" then some u.role else none
  | none => none

/-- isUserAdmin (part_005): `getUserRole() === 'admin'`. -/
def isUserAdmin (s : Store) : Bool := getUserRole s == some "admin"

/-- hasUserPermission (part_005):
`user?.permissions?.includes(permission) || isUserAdmin()` over the stored
user — optional chaining makes a missing user or missing permission list
contribute `undefined` (falsy), so the result falls through to the admin
check. -/
def hasUserPermission (s : Store) (permission : String) : Bool :=
  (match getStoredUser s with
   | some u =>
     match u.permissions with
     | some ps => ps.contains permission
     | none => false
   | none => false) || isUserAdmin s

/-- isAdmin (useAuth.jsx): `user?.role === 'admin'` over the in-memory user. -/
def isAdminB (user : Option UserRec) : Bool :=
  match user with
  | some u => u.role == "admin"
  | none => false

/-- hasPermission (useAuth.jsx):
`user?.permissions?.includes(permission) || isAdmin()` over the in-memory
user. -/
def hasPermission (user : Option UserRec) (permission : String) : Bool :=
  (match user with
   | some u =>
     match u.permissions with
     | some ps => ps.contains permission
     | none => false
   | none => false) || isAdminB user

/-- Claims decoded from a token payload; the code only inspects `exp`
(seconds since epoch). `decoded.exp` is used under JS truthiness, so an
absent or zero `exp` both count as missing. -/
structure Claims where
  exp : Option Int
deriving DecidableEq, Repr

/-- Accumulator loop of the platform's `String.prototype.split('.')`. -/
def jsSplitDotAux : List Char → List Char → List String
  | [], acc => [String.mk acc.reverse]
  | c :: rest, acc =>
    if c = '.' then String.mk acc.reverse :: jsSplitDotAux rest []
    else jsSplitDotAux rest (c :: acc)

/-- The platform's `token.split('.')`: split on every dot, keeping empty
segments, as JS does. -/
def jsSplitDot (s : String) : List String := jsSplitDotAux s.toList []

/-- decodeToken (part_005): split on `'.'`; exactly three segments required;
decode the middle segment with the platform's `atob` + `JSON.parse`
(passed in as `decodePayload`, returning `none` where that pipeline
throws — the surrounding try/catch turns any throw into `null`). -/
def decodeToken (decodePayload : String → Option Claims) (token : String) : Option Claims :=
  let parts := jsSplitDot token
  if parts.length = 3 then decodePayload (parts.getD 1 "") else none

/-- isTokenExpired (part_005): `true` if the token does not decode or has a
falsy `exp`; otherwise compare `exp * 1000 - Date.now()` against 60000 ms
with a strict `<`. `now` is `Date.now()` in milliseconds. -/
def isTokenExpired (decodePayload : String → Option Claims) (now : Int) (token : String) : Bool :=
  match decodeToken decodePayload token with
  | none => true
  | some decoded =>
    match decoded.exp with
    | none => true
    | some e =>
      if e = 0 then true
      else
        let expirationTime := e * 1000
        let timeUntilExpiration := expirationTime - now
        decide (timeUntilExpiration < 60000)

/-- One entry of a structured validation `detail` array; `ser` is the
`JSON.stringify(e)` fallback text. -/
structure DetailItem where
  msg : Option String
  message : Option String
  ser : String
deriving DecidableEq, Repr

/-- The `detail` field of a backend error body: either an array of
validation sub-errors or a plain string. -/
inductive DetailVal where
  | arr (items : List DetailItem)
  | str (s : String)
deriving DecidableEq, Repr

/-- JS truthiness of `errorData?.detail`: arrays are truthy (even empty);
a string is truthy iff nonempty; absent is falsy. -/
def detailTruthy : Option DetailVal → Bool
  | some (.arr _) => true
  | some (.str s) => s != ""
  | none => false

/-- Backend error body: optional `detail` and optional `message`. -/
structure ErrData where
  detail : Option DetailVal
  message : Option String
deriving DecidableEq, Repr

/-- `err.response` of an HTTP-layer error: body (`data`, possibly absent),
status code and status text. -/
structure ErrResponse where
  data : Option ErrData
  status : Nat
  statusText : String
deriving DecidableEq, Repr

/-- An error object as the normalizers see it: optional `response`
(HTTP error), a `request` marker (request was sent, truthy when the
request object exists), and an own `message` string. -/
structure ErrObj where
  response : Option ErrResponse
  request : Bool
  message : Option String
deriving DecidableEq, Repr

/-- `e.msg || e.message || JSON.stringify(e)` — the per-item message used by
both normalizers when joining a validation `detail` array. -/
def detailItemMsg (e : DetailItem) : String :=
  match e.msg with
  | some m =>
    if m != "" then m
    else
      match e.message with
      | some m2 => if m2 != "" then m2 else e.ser
      | none => e.ser
  | none =>
    match e.message with
    | some m2 => if m2 != "" then m2 else e.ser
    | none => e.ser

/-- Fixed network-failure message of formatErrorMessage (useAuth.jsx). -/
def cannotReachServerUseAuth : String :=
  "Không thể kết nối đến server. Vui lòng kiểm tra kết nối."

/-- Fixed network-failure message of formatAuthError (part_005). -/
def cannotReachServerUtils : String :=
  "Không thể kết nối đến server. Vui lòng kiểm tra kết nối mạng."

/-- formatErrorMessage (useAuth.jsx): with a response, use `detail` (array
joined with ", ", or the string verbatim), else the body `message`, else the
fallback; WITHOUT a response, the chain is `else if (err.message)` BEFORE
`else if (err.request)`, so an own message wins over the network rule. -/
def formatErrorMessage (err : ErrObj) (defaultMessage : String) : String :=
  match err.response with
  | some resp =>
    let d := resp.data.bind ErrData.detail
    if detailTruthy d then
      match d with
      | some (.arr items) => String.intercalate ", " (items.map detailItemMsg)
      | some (.str s) => s
      | none => defaultMessage
    else
      let m := resp.data.bind ErrData.message
      if strTruthy m then m.getD defaultMessage else defaultMessage
  | none =>
    if strTruthy err.message then err.message.getD defaultMessage
    else if err.request then cannotReachServerUseAuth
    else defaultMessage

/-- formatAuthError (part_005): with a response, `detail` then body
`message` then a fixed `Lỗi <status>: <statusText>` string; without one,
`if (err.request && !err.response)` comes BEFORE `if (err.message)`, so the
network rule wins over an own message; a null error gives the fallback. -/
def formatAuthError (err : Option ErrObj) (defaultMessage : String) : String :=
  match err with
  | none => defaultMessage
  | some e =>
    match e.response with
    | some resp =>
      let d := resp.data.bind ErrData.detail
      if detailTruthy d then
        match d with
        | some (.arr items) => String.intercalate ", " (items.map detailItemMsg)
        | some (.str s) => s
        | none => defaultMessage
      else
        let m := resp.data.bind ErrData.message
        if strTruthy m then m.getD defaultMessage
        else "Lỗi " ++ toString resp.status ++ ": " ++ resp.statusText
    | none =>
      if e.request then cannotReachServerUtils
      else if strTruthy e.message then e.message.getD defaultMessage
      else defaultMessage

/-- In-memory provider state (the `useState` values of the AuthProvider
other than the `isCheckingAuth` flag): `user`, `error`, `loading`. -/
structure Mem where
  user : Option UserRec
  error : Option String
  loading : Bool
deriving DecidableEq, Repr

/-- An observable write performed by an operation, in program order:
localStorage writes/removals of the two keys, and the in-memory `setUser`
call (which is what flips the derived authenticated status, since
`isAuthenticated()` is `!!user && !!getItem('access_token')`). -/
inductive Ev where
  | writeToken (t : String)
  | writeUser (u : UserRec)
  | removeToken
  | removeUser
  | setMemUser (u : Option UserRec)
deriving DecidableEq, Repr

/-- Effect of one logged event on the persisted store (the in-memory
`setMemUser` event does not touch the store). -/
def applyEv (s : Store) : Ev → Store
  | .writeToken t => { s with access_token := some t }
  | .writeUser u => { s with user := some (.ser u) }
  | .removeToken => { s with access_token := none }
  | .removeUser => { s with user := none }
  | .setMemUser _ => s

/-- Replay a list of logged events on a store. -/
def applyEvs (s : Store) (evs : List Ev) : Store := evs.foldl applyEv s

/-- Running state of one embedded operation: the persisted store, the
in-memory provider state, the event log in program order, and the number of
`apiService.getCurrentUser` calls triggered so far. -/
structure RunSt where
  store : Store
  mem : Mem
  log : List Ev
  getCurrentUserCalls : Nat
deriving DecidableEq, Repr

def RunSt.wToken (st : RunSt) (t : String) : RunSt :=
  { st with store := { st.store with access_token := some t }, log := st.log ++ [.writeToken t] }

def RunSt.wUser (st : RunSt) (u : UserRec) : RunSt :=
  { st with store := { st.store with user := some (.ser u) }, log := st.log ++ [.writeUser u] }

def RunSt.rmToken (st : RunSt) : RunSt :=
  { st with store := { st.store with access_token := none }, log := st.log ++ [.removeToken] }

def RunSt.rmUser (st : RunSt) : RunSt :=
  { st with store := { st.store with user := none }, log := st.log ++ [.removeUser] }

def RunSt.setMemUser (st : RunSt) (u : Option UserRec) : RunSt :=
  { st with mem := { st.mem with user := u }, log := st.log ++ [.setMemUser u] }

def RunSt.setMemError (st : RunSt) (e : Option String) : RunSt :=
  { st with mem := { st.mem with error := e } }

def RunSt.setMemLoading (st : RunSt) (b : Bool) : RunSt :=
  { st with mem := { st.mem with loading := b } }

def RunSt.callGetCurrentUser (st : RunSt) : RunSt :=
  { st with getCurrentUserCalls := st.getCurrentUserCalls + 1 }

/-- Outcome of an awaited `apiService` call: resolves with a value or
rejects with an error object. -/
inductive ApiOutcome (α : Type) where
  | ok (value : α)
  | fail (e : ErrObj)
deriving DecidableEq, Repr

/-- `response.data` of a login/register response: optional `access_token`
and optional embedded `user`. -/
structure LoginData where
  access_token : Option String
  user : Option UserRec
deriving DecidableEq, Repr

/-- A login/register response; `data` itself may be absent. -/
structure LoginResponse where
  data : Option LoginData
deriving DecidableEq, Repr

/-- The message of the `Error` thrown when the response carries no token. -/
def missingTokenMsg : String := "Không nhận được token từ server"

/-- Fallback message of `login`. -/
def loginFallback : String := "Đăng nhập thất bại. Vui lòng thử lại."

/-- Fallback message of `register`. -/
def registerFallback : String := "Đăng ký thất bại. Vui lòng thử lại."

/-- Message of the TypeError thrown by register's unguarded destructuring
`const { access_token, user } = response.data` when `data` is absent. -/
def destructureErrMsg : String :=
  "Cannot destructure property 'access_token' of 'response.data' as it is undefined."

/-- An `Error` object thrown locally (`new Error(m)`): it has a message but
no `response` and no `request`. -/
def localError (m : String) : ErrObj := { response := none, request := false, message := some m }

/-- Result of `login`/`register`: the post run-state and either the resolved
`{ user, token }` pair or the rejection message (the code re-throws
`new Error(errorMessage)`). -/
structure OpResult where
  st : RunSt
  outcome : Except String (Option UserRec × String)
deriving Repr

/-- The catch block of `login` (useAuth.jsx lines 117-127): remove BOTH
localStorage keys, normalize the error, `setError`, re-throw; the finally
block then does `setLoading(false)`. -/
def loginCatch (st : RunSt) (err : ErrObj) : OpResult :=
  let st := st.rmToken
  let st := st.rmUser
  let errorMessage := formatErrorMessage err loginFallback
  let st := st.setMemError (some errorMessage)
  { st := st.setMemLoading false, outcome := .error errorMessage }

/-- Shared tail of `login`/`register` after the token is persisted: if the
response embeds a user, persist and publish it; otherwise fetch the current
user, persisting and publishing on success and swallowing the error on
failure (the operation still succeeds with an absent user). -/
def populateUser (st : RunSt) (access_token : String) (responseUser : Option UserRec)
    (getCurrentUserRes : ApiOutcome UserRec) : OpResult :=
  match responseUser with
  | some u =>
    let st := st.wUser u
    let st := st.setMemUser (some u)
    { st := st.setMemLoading false, outcome := .ok (some u, access_token) }
  | none =>
    let st := st.callGetCurrentUser
    match getCurrentUserRes with
    | .ok u =>
      let st := st.wUser u
      let st := st.setMemUser (some u)
      { st := st.setMemLoading false, outcome := .ok (some u, access_token) }
    | .fail _ =>
      { st := st.setMemLoading false, outcome := .ok (none, access_token) }

/-- login (useAuth.jsx lines 83-131): `setLoading(true); setError(null)`;
await `apiService.login`; `response.data || {}`; a falsy `access_token` is a
thrown protocol violation; otherwise the token is written first, then the
user is resolved and written; any throw lands in `loginCatch`. -/
def login (st0 : RunSt) (loginRes : ApiOutcome LoginResponse)
    (getCurrentUserRes : ApiOutcome UserRec) : OpResult :=
  let st := (st0.setMemLoading true).setMemError none
  match loginRes with
  | .fail err => loginCatch st err
  | .ok response =>
    let d := response.data.getD { access_token := none, user := none }
    if strTruthy d.access_token then
      let access_token := d.access_token.getD ""
      let st := st.wToken access_token
      populateUser st access_token d.user getCurrentUserRes
    else
      loginCatch st (localError missingTokenMsg)

/-- The catch block of `register` (useAuth.jsx lines 171-177): unlike
`login`, it performs NO localStorage cleanup — it only normalizes the
error, `setError`s and re-throws. -/
def registerCatch (st : RunSt) (err : ErrObj) : OpResult :=
  let errorMessage := formatErrorMessage err registerFallback
  let st := st.setMemError (some errorMessage)
  { st := st.setMemLoading false, outcome := .error errorMessage }

/-- register (useAuth.jsx lines 138-181): same shape as `login` except that
`response.data` is destructured without the `|| {}` guard (an absent `data`
throws a TypeError) and the catch block performs no rollback. -/
def register (st0 : RunSt) (registerRes : ApiOutcome LoginResponse)
    (getCurrentUserRes : ApiOutcome UserRec) : OpResult :=
  let st := (st0.setMemLoading true).setMemError none
  match registerRes with
  | .fail err => registerCatch st err
  | .ok response =>
    match response.data with
    | none => registerCatch st (localError destructureErrMsg)
    | some d =>
      if strTruthy d.access_token then
        let access_token := d.access_token.getD ""
        let st := st.wToken access_token
        populateUser st access_token d.user getCurrentUserRes
      else
        registerCatch st (localError missingTokenMsg)

/-- logout (useAuth.jsx lines 186-199): the server call's failure is only
logged; the finally block unconditionally removes the token key, then the
user key, then `setUser(null)` and `setError(null)`. -/
def logout (st0 : RunSt) (logoutRes : ApiOutcome Unit) : RunSt :=
  let st := match logoutRes with
    | .ok _ => st0
    | .fail _ => st0
  let st := st.rmToken
  let st := st.rmUser
  let st := st.setMemUser none
  st.setMemError none

/-- checkAuth (useAuth.jsx lines 25-76), parameterized by the value of
`isCheckingAuth` captured by the invoking closure. After the guard, the
body reads both keys; with both truthy it parses the stored user (a parse
failure removes only the `user` key), publishes it optimistically, then
verifies via `getCurrentUser`, refreshing the stored user on success and
clearing both keys on failure; with only a token it fetches the user,
writing it on success and clearing both keys on failure; with no (truthy)
token nothing happens. The finally block does `setLoading(false)`. -/
def checkAuth (capturedIsCheckingAuth : Bool) (st0 : RunSt)
    (getCurrentUserRes : ApiOutcome UserRec) : RunSt :=
  if capturedIsCheckingAuth then st0
  else
    let storedUser := st0.store.user
    let token := st0.store.access_token
    let st :=
      if storedTruthy storedUser && strTruthy token then
        match jsonParseUser (storedUser.getD (.malformed "")) with
        | some userData =>
          let st := st0.setMemUser (some userData)
          let st := st.callGetCurrentUser
          match getCurrentUserRes with
          | .ok u =>
            let st := st.setMemUser (some u)
            let st := st.wUser u
            st.setMemError none
          | .fail _ =>
            let st := st.rmToken
            let st := st.rmUser
            let st := st.setMemUser none
            st.setMemError none
        | none =>
          let st := st0.rmUser
          st.setMemUser none
      else if strTruthy token then
        let st := st0.callGetCurrentUser
        match getCurrentUserRes with
        | .ok u =>
          let st := st.setMemUser (some u)
          let st := st.wUser u
          st.setMemError none
        | .fail _ =>
          let st := st.rmToken
          let st := st.rmUser
          let st := st.setMemUser none
          st.setMemError none
      else st0
    st.setMemLoading false

/-- A React `useState` boolean cell: `rendered` is the value captured by the
closures of the current render; a setter call only schedules `pending`,
which becomes visible at the next render. -/
structure StateCell where
  rendered : Bool
  pending : Option Bool
deriving DecidableEq, Repr

def StateCell.read (c : StateCell) : Bool := c.rendered

def StateCell.set (c : StateCell) (v : Bool) : StateCell := { c with pending := some v }

def StateCell.render (c : StateCell) : StateCell :=
  { rendered := c.pending.getD c.rendered, pending := none }

/-- Two `checkAuth()` invocations in the same event-loop turn (before the
first resolves and before any re-render), counting the `getCurrentUser`
calls they trigger. Both closures capture the render-time value of
`isCheckingAuth` (initially `false`); the first invocation's
`setIsCheckingAuth(true)` only schedules a pending update, so the second
invocation still reads `false`. The first invocation performs no
localStorage write before its first await (`await
apiService.getCurrentUser()`), so the second invocation reads the same
store. Each invocation's `getCurrentUser` count is independent of the
other's later resumption, so the total is the sum of the two runs'
counts. -/
def twoCallsSameTurnGetCurrentUserCalls (store : Store) (mem : Mem)
    (res1 res2 : ApiOutcome UserRec) : Nat :=
  let flag0 : StateCell := { rendered := false, pending := none }
  let captured1 := flag0.read
  let flag1 := flag0.set true
  let captured2 := flag1.read
  let r1 := checkAuth captured1 { store := store, mem := mem, log := [], getCurrentUserCalls := 0 } res1
  let r2 := checkAuth captured2 { store := store, mem := mem, log := [], getCurrentUserCalls := 0 } res2
  r1.getCurrentUserCalls + r2.getCurrentUserCalls

/-- A concrete non-admin user record. -/
def demoUser : UserRec :=
  { id := 1, email := "a@b.c", username := "alice", full_name := "Alice A",
    role := "user", permissions := some ["read"] }

/-- A concrete admin user record with no permission list. -/
def demoAdmin : UserRec :=
  { id := 2, email := "r@b.c", username := "root", full_name := "Root R",
    role := "admin", permissions := none }

/-- A store holding a token and a well-formed serialized user. -/
def demoStoreFull : Store := { access_token := some "t0", user := some (.ser demoUser) }

/-- Empty provider memory at boot. -/
def demoMem : Mem := { user := none, error := none, loading := true }

/-- A fresh run state over a store and memory: empty log, no calls yet. -/
def runOf (s : Store) (m : Mem) : RunSt := ⟨s, m, [], 0⟩

/-- A run state over a given store with empty log. -/
def demoRun (s : Store) : RunSt := { store := s, mem := demoMem, log := [], getCurrentUserCalls := 0 }

/-- A generic rejection carrying only a message. -/
def demoErr : ErrObj := { response := none, request := false, message := some "boom" }

/-- An axios-style network failure: the request object exists, no response
arrived, and the error carries its own `message` ("Network Error"). -/
def networkErrObj : ErrObj := { response := none, request := true, message := some "Network Error" }

/-- A payload decoder that recognizes the single payload segment `"p"` as
claims with `exp = 100` seconds. -/
def demoPayloadDecoder : String → Option Claims :=
  fun s => if s = "p" then some { exp := some 100 } else none

/-- `populateUser` always resolves (its internal user-fetch failure is
swallowed), so it never contributes an error outcome. -/
theorem populateUser_not_error (st : RunSt) (a : String) (ru : Option UserRec)
    (g : ApiOutcome UserRec) (m : String) :
    (populateUser st a ru g).outcome ≠ .error m := by
  cases ru <;> cases g <;> simp [populateUser]

/-- C1: with a token and a parseable user persisted, two `checkAuth()`
invocations in the same event-loop turn — the second starting before the
first resolves and before any re-render — trigger two `getCurrentUser`
calls, not one: the `isCheckingAuth` guard reads the render-captured value,
which `setIsCheckingAuth(true)` does not change for the current render. -/
theorem C1_checkAuth_same_turn_double_call_fires_two_verifications :
    twoCallsSameTurnGetCurrentUserCalls demoStoreFull demoMem (.ok demoUser) (.ok demoUser) = 2 := by
  rfl

/-- C2 counterexample: with a pre-existing token/user pair persisted and
`SessionClient.login` resolving a body with no token, `login` rejects with
the fixed protocol-violation message but the store is NOT left as it was:
both pre-existing entries are removed. -/
theorem C2_login_missing_token_clears_preexisting_entries :
    (login (demoRun demoStoreFull)
        (.ok { data := some { access_token := none, user := none } }) (.ok demoUser)).outcome
      = .error missingTokenMsg ∧
    (login (demoRun demoStoreFull)
        (.ok { data := some { access_token := none, user := none } }) (.ok demoUser)).st.store
      = { access_token := none, user := none } ∧
    demoStoreFull ≠ { access_token := none, user := none } := by
  refine ⟨rfl, rfl, by decide⟩

/-- C2 amended: when `SessionClient.login` resolves with a falsy
`access_token`, `login` rejects with the fixed protocol-violation message,
the catch block unconditionally removes BOTH PersistentStore keys (so the
post store is empty — unchanged only when it was already empty), the
in-memory user is unchanged, and `lastError` is set to that message. -/
theorem C2_login_missing_token_behavior (st0 : RunSt) (resp : LoginResponse)
    (g : ApiOutcome UserRec)
    (h : strTruthy ((resp.data.getD { access_token := none, user := none }).access_token) = false) :
    (login st0 (.ok resp) g).outcome = .error missingTokenMsg ∧
    (login st0 (.ok resp) g).st.store = { access_token := none, user := none } ∧
    (login st0 (.ok resp) g).st.mem.user = st0.mem.user ∧
    (login st0 (.ok resp) g).st.mem.error = some missingTokenMsg := by
  simp only [login, h, Bool.false_eq_true, if_false, loginCatch]
  refine ⟨rfl, rfl, rfl, rfl⟩

/-- C2 witness. -/
theorem C2_login_missing_token_behavior_witness :
    (login (demoRun demoStoreFull)
        (.ok { data := some { access_token := none, user := none } }) (.ok demoUser)).outcome
      = .error missingTokenMsg :=
  (C2_login_missing_token_behavior (demoRun demoStoreFull)
    { data := some { access_token := none, user := none } } (.ok demoUser) rfl).1

/-- C3 counterexample: on the same failing input (pre-existing persisted
pair, response body `{}`), `login` clears the store while `register` leaves
it exactly as it was — the rollback disciplines are not identical. -/
theorem C3_register_and_login_rollback_differ :
    (register (demoRun demoStoreFull)
        (.ok { data := some { access_token := none, user := none } }) (.ok demoUser)).st.store
      = demoStoreFull ∧
    (login (demoRun demoStoreFull)
        (.ok { data := some { access_token := none, user := none } }) (.ok demoUser)).st.store
      ≠ demoStoreFull := by
  refine ⟨rfl, by decide⟩

/-- C3 amended: every failing run of `register` (the backend rejecting, an
absent response body, or a falsy token) occurs before any write, and its
catch block performs no clearing — the store and the in-memory user are
exactly what they were before the call; there is never a partial write to
roll back, but the discipline differs from `login`, whose catch
unconditionally removes both entries. -/
theorem C3_register_failure_never_mutates_store (st0 : RunSt) (r : ApiOutcome LoginResponse)
    (g : ApiOutcome UserRec) (m : String)
    (h : (register st0 r g).outcome = .error m) :
    (register st0 r g).st.store = st0.store ∧ (register st0 r g).st.mem.user = st0.mem.user := by
  cases r with
  | fail e => exact ⟨rfl, rfl⟩
  | ok resp =>
    obtain ⟨data⟩ := resp
    cases data with
    | none => exact ⟨rfl, rfl⟩
    | some d =>
      by_cases ht : strTruthy d.access_token = true
      · exfalso
        simp only [register, ht, if_true] at h
        exact populateUser_not_error _ _ _ _ _ h
      · simp only [register, ht, if_false, registerCatch]
        exact ⟨rfl, rfl⟩

/-- C3 witness. -/
theorem C3_register_failure_never_mutates_store_witness :
    (register (demoRun demoStoreFull)
        (.ok { data := some { access_token := none, user := none } }) (.ok demoUser)).st.store
      = demoStoreFull :=
  (C3_register_failure_never_mutates_store (demoRun demoStoreFull)
    (.ok { data := some { access_token := none, user := none } }) (.ok demoUser)
    missingTokenMsg rfl).1

/-- C4 counterexample: `formatErrorMessage` (useAuth.jsx) returns the
error's own message for an error that reached the network layer without a
response but carries a `message`, instead of the fixed cannot-reach-server
text — the own-message rule fires first there. -/
theorem C4_formatErrorMessage_own_message_beats_network :
    formatErrorMessage networkErrObj loginFallback = "Network Error" ∧
    "Network Error" ≠ cannotReachServerUseAuth := by
  refine ⟨rfl, by decide⟩

/-- C4 amended: the claimed precedence (network-failure rule strictly before
the own-message rule) holds in `formatAuthError` (part_005), which returns
the fixed message for every response-less error with a request marker even
when a message is present; `formatErrorMessage` (useAuth.jsx) instead
checks the error's own message first and returns it whenever it is truthy,
reaching its network rule only for message-less errors. -/
theorem C4_network_rule_precedence_split (e : ErrObj) (fallback : String)
    (hresp : e.response = none) :
    (e.request = true → formatAuthError (some e) fallback = cannotReachServerUtils) ∧
    (strTruthy e.message = true → formatErrorMessage e fallback = e.message.getD fallback) := by
  obtain ⟨resp, req, msg⟩ := e
  simp only at hresp
  subst hresp
  constructor
  · intro hr
    simp only at hr
    simp [formatAuthError, hr]
  · intro hm
    simp only at hm
    simp [formatErrorMessage, hm]

/-- C4 witness. -/
theorem C4_network_rule_precedence_split_witness :
    formatAuthError (some networkErrObj) loginFallback = cannotReachServerUtils ∧
    formatErrorMessage networkErrObj loginFallback = (networkErrObj.message).getD loginFallback :=
  ⟨(C4_network_rule_precedence_split networkErrObj loginFallback rfl).1 rfl,
   (C4_network_rule_precedence_split networkErrObj loginFallback rfl).2 rfl⟩

/-- C5 counterexample: a token whose expiry is exactly 60 seconds away
(`exp = 100` s, `now = 40000` ms, so `exp * 1000 - now = 60000` ms) is NOT
reported expired: the code compares with a strict `< 60000`, while the
claim requires `true` at exactly 60 seconds remaining. -/
theorem C5_isTokenExpired_false_at_exactly_60s :
    decodeToken demoPayloadDecoder "h.p.s" = some { exp := some 100 } ∧
    (100 : Int) * 1000 - 40000 = 60000 ∧
    isTokenExpired demoPayloadDecoder 40000 "h.p.s" = false := by
  refine ⟨by decide, by decide, by decide⟩

/-- C5 amended: `isTokenExpired` returns true when the claims are
undecodable or the expiry claim is absent (or zero, which JS truthiness
conflates with absent); for a decodable token with a nonzero expiry it
returns true exactly when strictly less than 60 seconds remain — at exactly
60 seconds remaining it returns false. -/
theorem C5_isTokenExpired_strict_boundary (dp : String → Option Claims) (now : Int)
    (token : String) :
    (decodeToken dp token = none → isTokenExpired dp now token = true) ∧
    (∀ c, decodeToken dp token = some c → c.exp = none → isTokenExpired dp now token = true) ∧
    (decodeToken dp token = some { exp := some 0 } → isTokenExpired dp now token = true) ∧
    (∀ e, decodeToken dp token = some { exp := some e } → e ≠ 0 →
      (isTokenExpired dp now token = true ↔ e * 1000 - now < 60000)) := by
  refine ⟨fun h => by simp [isTokenExpired, h],
          fun c hc he => by simp [isTokenExpired, hc, he],
          fun h => by simp [isTokenExpired, h],
          fun e he hne => by simp [isTokenExpired, he, hne]⟩

/-- C5 witness. -/
theorem C5_isTokenExpired_strict_boundary_witness :
    isTokenExpired demoPayloadDecoder 40000 "h.p.s" = true ↔
      (100 : Int) * 1000 - 40000 < 60000 :=
  (C5_isTokenExpired_strict_boundary demoPayloadDecoder 40000 "h.p.s").2.2.2 100 (by decide)
    (by decide)

/-- C6 counterexample: a persisted user without a token is NOT treated as
corrupt: `checkAuth` takes neither branch (the token is falsy), the
dangling `user` entry stays in the store, and nothing is cleared. -/
theorem C6_dangling_user_entry_not_cleared :
    (checkAuth false (demoRun { access_token := none, user := some (.ser demoUser) })
        (.ok demoUser)).store
      = { access_token := none, user := some (.ser demoUser) } ∧
    ({ access_token := none, user := some (.ser demoUser) } : Store).user ≠ none := by
  refine ⟨rfl, by decide⟩

/-- C6 amended: at startup read, token-without-user is repaired rather than
cleared — `checkAuth` fetches the current user and persists it next to the
existing token on success, clearing both entries only when the fetch
fails; user-without-token is left entirely untouched (the stale user entry
persists). -/
theorem C6_mismatched_pair_handling (m : Mem) (t : String) (ht : t ≠ "") (u : UserRec)
    (e : ErrObj) (sv : StoredVal) (res : ApiOutcome UserRec) :
    (checkAuth false (runOf ⟨some t, none⟩ m) (.ok u)).store = ⟨some t, some (.ser u)⟩ ∧
    (checkAuth false (runOf ⟨some t, none⟩ m) (.fail e)).store = ⟨none, none⟩ ∧
    (checkAuth false (runOf ⟨none, some sv⟩ m) res).store = ⟨none, some sv⟩ := by
  refine ⟨?_, ?_, ?_⟩
  · simp [checkAuth, runOf, storedTruthy, strTruthy, ht, RunSt.setMemLoading,
      RunSt.setMemError, RunSt.wUser, RunSt.setMemUser, RunSt.callGetCurrentUser]
  · simp [checkAuth, runOf, storedTruthy, strTruthy, ht, RunSt.setMemLoading,
      RunSt.setMemError, RunSt.rmToken, RunSt.rmUser, RunSt.setMemUser,
      RunSt.callGetCurrentUser]
  · cases sv <;>
      simp [checkAuth, runOf, storedTruthy, strTruthy, RunSt.setMemLoading, jsonParseUser,
        RunSt.rmUser, RunSt.setMemUser]

/-- C6 witness. -/
theorem C6_mismatched_pair_handling_witness :
    (checkAuth false (runOf ⟨some "t1", none⟩ demoMem) (.ok demoUser)).store
      = ⟨some "t1", some (.ser demoUser)⟩ :=
  (C6_mismatched_pair_handling demoMem "t1" (by decide) demoUser demoErr (.ser demoUser)
    (.ok demoUser)).1

/-- C7 counterexample: the teardown of `logout` is issued as
remove-token, remove-user, flip-status — not the prescribed
flip-status, clear-user, clear-token order. -/
theorem C7_teardown_order_is_reversed :
    (logout (demoRun demoStoreFull) (.ok ())).log
      = [.removeToken, .removeUser, .setMemUser none] ∧
    [Ev.removeToken, Ev.removeUser, Ev.setMemUser none]
      ≠ [Ev.setMemUser none, Ev.removeUser, Ev.removeToken] := by
  refine ⟨rfl, by decide⟩

/-- C7 amended: populate does follow the prescribed order (write token,
then write user, then flip the in-memory status); teardown — in `logout`
and equally in `checkAuth`'s failed-verification path — instead clears the
token first, then the user, then flips the status (the failed-verification
path is preceded only by the optimistic in-memory publish of the cached
user), the reverse of the prescription — and as a consequence no prefix of
either teardown, replayed on an authenticated store, ever exhibits a
persisted token without a persisted user. -/
theorem C7_write_and_teardown_order (s : Store) (m : Mem) (t : String) (u : UserRec)
    (g : ApiOutcome UserRec) (r : ApiOutcome Unit) (e : ErrObj) (ht : t ≠ "") :
    (login (runOf s m)
        (.ok { data := some { access_token := some t, user := some u } }) g).st.log
      = [.writeToken t, .writeUser u, .setMemUser (some u)] ∧
    (logout (runOf s m) r).log = [.removeToken, .removeUser, .setMemUser none] ∧
    (checkAuth false (runOf ⟨some t, some (.ser u)⟩ m) (.fail e)).log
      = [.setMemUser (some u), .removeToken, .removeUser, .setMemUser none] ∧
    (∀ n, strTruthy (applyEvs ⟨some t, some (.ser u)⟩
          ((logout (runOf s m) r).log.take n)).access_token = true →
        (applyEvs ⟨some t, some (.ser u)⟩
          ((logout (runOf s m) r).log.take n)).user ≠ none) ∧
    (∀ n, strTruthy (applyEvs ⟨some t, some (.ser u)⟩
          (((checkAuth false (runOf ⟨some t, some (.ser u)⟩ m) (.fail e)).log).take n)).access_token = true →
        (applyEvs ⟨some t, some (.ser u)⟩
          (((checkAuth false (runOf ⟨some t, some (.ser u)⟩ m) (.fail e)).log).take n)).user ≠ none) := by
  have hlogout : (logout (runOf s m) r).log
      = [.removeToken, .removeUser, .setMemUser none] := by
    cases r <;> rfl
  have hcheck : (checkAuth false (runOf ⟨some t, some (.ser u)⟩ m) (.fail e)).log
      = [.setMemUser (some u), .removeToken, .removeUser, .setMemUser none] := by
    simp [checkAuth, runOf, storedTruthy, strTruthy, ht, jsonParseUser, RunSt.setMemLoading,
      RunSt.setMemError, RunSt.rmToken, RunSt.rmUser, RunSt.setMemUser,
      RunSt.callGetCurrentUser]
  refine ⟨?_, hlogout, hcheck, ?_, ?_⟩
  · simp [login, runOf, strTruthy, ht, populateUser, RunSt.setMemLoading, RunSt.setMemError,
      RunSt.wToken, RunSt.wUser, RunSt.setMemUser]
  · intro n
    rw [hlogout]
    match n with
    | 0 => intro _; simp [applyEvs]
    | 1 => intro h; simp [applyEvs, applyEv, strTruthy] at h
    | 2 => intro h; simp [applyEvs, applyEv, strTruthy] at h
    | (k + 3) => intro h; simp [applyEvs, applyEv, strTruthy, List.take] at h
  · intro n
    rw [hcheck]
    match n with
    | 0 => intro _; simp [applyEvs]
    | 1 => intro _; simp [applyEvs, applyEv]
    | 2 => intro h; simp [applyEvs, applyEv, strTruthy] at h
    | 3 => intro h; simp [applyEvs, applyEv, strTruthy] at h
    | (k + 4) => intro h; simp [applyEvs, applyEv, strTruthy, List.take] at h

/-- C7 witness. -/
theorem C7_write_and_teardown_order_witness :
    (login (runOf demoStoreFull demoMem)
        (.ok { data := some { access_token := some "t2", user := some demoUser } })
        (.ok demoUser)).st.log
      = [.writeToken "t2", .writeUser demoUser, .setMemUser (some demoUser)] ∧
    (checkAuth false (runOf ⟨some "t2", some (.ser demoUser)⟩ demoMem) (.fail demoErr)).log
      = [.setMemUser (some demoUser), .removeToken, .removeUser, .setMemUser none] :=
  ⟨(C7_write_and_teardown_order demoStoreFull demoMem "t2" demoUser (.ok demoUser) (.ok ())
      demoErr (by decide)).1,
   (C7_write_and_teardown_order demoStoreFull demoMem "t2" demoUser (.ok demoUser) (.ok ())
      demoErr (by decide)).2.2.1⟩

/-- C8 counterexample: reading a malformed stored user through
`getStoredUser` returns `null` but does NOT clear the malformed entry —
the returned store still holds it. -/
theorem C8_getStoredUser_leaves_malformed_entry :
    getStoredUserRun { access_token := some "t0", user := some (.malformed "not-json") }
      = (none, { access_token := some "t0", user := some (.malformed "not-json") }) ∧
    ({ access_token := some "t0", user := some (.malformed "not-json") } : Store).user ≠ none := by
  refine ⟨rfl, by decide⟩

/-- C8 amended: a malformed stored user is treated as absent without a
propagated parse failure in both readers, but only the startup read clears
it: `getStoredUser` returns `null` and leaves the store untouched, while
`checkAuth` (with a token present) removes the malformed `user` entry —
and only that entry, the token is retained — and publishes no user. -/
theorem C8_malformed_user_read_behavior (tok : Option String) (bad : String) (m : Mem)
    (t : String) (ht : t ≠ "") (hbad : bad ≠ "") (res : ApiOutcome UserRec) :
    getStoredUserRun ⟨tok, some (.malformed bad)⟩
      = (none, ⟨tok, some (.malformed bad)⟩) ∧
    (checkAuth false (runOf ⟨some t, some (.malformed bad)⟩ m) res).store
      = ⟨some t, none⟩ ∧
    (checkAuth false (runOf ⟨some t, some (.malformed bad)⟩ m) res).mem.user = none := by
  refine ⟨rfl, ?_, ?_⟩
  · simp [checkAuth, runOf, storedTruthy, strTruthy, ht, hbad, jsonParseUser,
      RunSt.setMemLoading, RunSt.rmUser, RunSt.setMemUser]
  · simp [checkAuth, runOf, storedTruthy, strTruthy, ht, hbad, jsonParseUser,
      RunSt.setMemLoading, RunSt.rmUser, RunSt.setMemUser]

/-- C8 witness. -/
theorem C8_malformed_user_read_behavior_witness :
    (checkAuth false (runOf ⟨some "t1", some (.malformed "x")⟩ demoMem) (.ok demoUser)).store
      = ⟨some "t1", none⟩ :=
  (C8_malformed_user_read_behavior (some "t1") "x" demoMem "t1" (by decide) (by decide)
    (.ok demoUser)).2.1

/-- C9: `hasPermission` is total and never throws — it returns false with no
user, with a user lacking a permission list, or with a list not containing
the name (whenever the role is not the admin role), and returns true for
every permission name whenever the user's role is `admin`, even with no
permission list; the stored-user variant `hasUserPermission` behaves the
same way. -/
theorem C9_hasPermission_total (perm : String) :
    hasPermission none perm = false ∧
    (∀ u : UserRec, u.permissions = none → u.role ≠ "admin" →
      hasPermission (some u) perm = false) ∧
    (∀ (u : UserRec) (ps : List String), u.permissions = some ps → perm ∉ ps →
      u.role ≠ "admin" → hasPermission (some u) perm = false) ∧
    (∀ u : UserRec, u.role = "admin" → hasPermission (some u) perm = true) ∧
    (∀ s : Store, s.user = none → hasUserPermission s perm = false) ∧
    (∀ (s : Store) (u : UserRec), s.user = some (.ser u) → u.role = "admin" →
      hasUserPermission s perm = true) := by
  refine ⟨rfl, ?_, ?_, ?_, ?_, ?_⟩
  · intro u hp hr
    simp [hasPermission, isAdminB, hp, hr]
  · intro u ps hp hmem hr
    simp [hasPermission, isAdminB, hp, hmem, hr]
  · intro u hr
    simp [hasPermission, isAdminB, hr]
  · intro s hs
    simp [hasUserPermission, isUserAdmin, getUserRole, getStoredUser, hs]
  · intro s u hs hr
    simp [hasUserPermission, isUserAdmin, getUserRole, getStoredUser, hs, jsonParseUser, hr]

/-- C9 witness. -/
theorem C9_hasPermission_total_witness :
    hasPermission (some demoAdmin) "manage" = true :=
  (C9_hasPermission_total "manage").2.2.2.1 demoAdmin rfl

/-- C10: the PersistentStore setters treat every falsy argument as removal:
after `setAccessToken` with a falsy token (absent or the empty string) the
token entry is absent, so an empty-string token can never be persisted, and
after `setStoredUser` with a falsy (absent) user the user entry is
absent. -/
theorem C10_setters_treat_falsy_as_removal (s : Store) (t : Option String) :
    (strTruthy t = false → getAccessToken (setAccessToken t s) = none) ∧
    getAccessToken (setAccessToken (some "") s) = none ∧
    getStoredUser (setStoredUser none s) = none := by
  refine ⟨?_, rfl, rfl⟩
  intro h
  simp [setAccessToken, getAccessToken, h]

/-- C10 witness. -/
theorem C10_setters_treat_falsy_as_removal_witness :
    getAccessToken (setAccessToken none demoStoreFull) = none :=
  (C10_setters_treat_falsy_as_removal demoStoreFull none).1 rfl

end DeadlineAuth
